import Mathlib

/-!
Verification development for `mujoco_py/builder.py`.

The Python module is shallowly embedded: pure computations (source synthesis,
warning-pattern matching, cleanup filtering) become Lean functions; effectful
steps (the C compiler, the platform relinker, the dynamic loader, the
filesystem, environment variables) become explicit oracle parameters and
explicit state threading; Python exceptions become `Except` values tagged with
the raised exception class.
-/

/-- Python exception classes relevant to `builder.py`.  Note that
`subprocess.TimeoutExpired` (raised by `subprocess.check_call` when its
`timeout` elapses) is a distinct class from the builtin `TimeoutError`:
in CPython, `TimeoutExpired` derives from `SubprocessError`, not from
`TimeoutError`, so an `except TimeoutError` clause does not catch it. -/
inductive PyExc where
  | calledProcessError
  | timeoutExpired
  | timeoutError
  | importError
  | assertionError
  | generic (msg : String)
deriving DecidableEq

/-- A Python value passed as the `userdata_names` argument. -/
inductive PyVal where
  | pyList (xs : List String)
  | pyTuple (xs : List String)
  | pyStr (s : String)
  | pyNone
  | pyInt (n : Int)
deriving DecidableEq

/-- `isinstance(v, (list, tuple))` from the assert in `build_callback_fn`. -/
def isListOrTuple : PyVal → Bool
  | .pyList _ => true
  | .pyTuple _ => true
  | _ => false

/-- The list of names carried by a list or tuple value. -/
def namesOf : PyVal → List String
  | .pyList xs => xs
  | .pyTuple xs => xs
  | _ => []

/-- Python truthiness of `os.environ.get(key, False)`: the result is `False`
when the variable is absent, and the raw string when present; a string is
truthy exactly when it is non-empty. -/
def pyTruthy : Option String → Bool
  | none => false
  | some s => s ≠ ""

/-- `f` starts with `pre` — the files matched by `glob.glob(name + '*')`
inside the directory are exactly those whose name has `name` as a prefix
(the generated names contain no glob metacharacters). -/
def strStarts (f pre : String) : Bool :=
  pre.data.isPrefixOf f.data

/-- `build_fn_cleanup(name)` from builder.py: when the
`MUJOCO_PY_DEBUG_FN_BUILDER` environment variable is falsy, remove every
file matching `name + '*'`; `os.remove` failures with `PermissionError`
are printed and skipped, modelled by the `removable` oracle (a file stays
behind exactly when removing it raises `PermissionError`).  When the
variable is truthy the function does nothing. -/
def build_fn_cleanup (debugEnv : Option String) (removable : String → Bool)
    (name : String) (fs : List String) : List String :=
  if pyTruthy debugEnv then fs
  else fs.filter (fun f => !(strStarts f name && removable f))

/-- The substitution directive emitted for alias `data_name` at index `i`:
`'#define {} d->userdata[{}]\n'.format(data_name, i)`. -/
def defineLine (data_name : String) (i : Nat) : String :=
  "#define " ++ data_name ++ " d->userdata[" ++ toString i ++ "]\n"

/-- Source synthesis from `build_callback_fn`: the fixed header include, a
`#define` directive per userdata name accumulated left-to-right by the
`for i, data_name in enumerate(userdata_names)` loop, then the caller's
function body, then the directive exporting the address of `fun`. -/
def synth_source (function_string : String) (userdata_names : List String) : String :=
  (userdata_names.enum.foldl
      (fun acc p => acc ++ defineLine p.2 p.1)
      "#include <mujoco.h>\n")
    ++ function_string
    ++ "\nuintptr_t __fun = (uintptr_t) fun;"

/-- Modelled from the spec (§4.1, §8): the list of substitution directives a
synthesized source is claimed to contain — one directive per alias name, the
directive at position `i` mapping the `i`-th alias (in request order) to
user-data slot `i`. -/
def directiveList (names : List String) : List String :=
  names.enum.map (fun p => defineLine p.2 p.1)

/-- Plain concatenation of a list of strings. -/
def concatList : List String → String
  | [] => ""
  | s :: rest => s ++ concatList rest

/-- The external world of one `build_callback_fn` call: environment and
platform, the `PermissionError` oracle for `os.remove`, the files written by
`ffibuilder.compile` (written even when compilation fails — these are the
partial artifacts), and the outcomes of the compile, relink
(`manually_link_libraries` + `move`, macOS only) and `load_dynamic_ext`
steps. -/
structure BuildWorld where
  debugEnv : Option String
  darwin : Bool
  removable : String → Bool
  compileFiles : List String
  compileResult : Except PyExc String
  relinkResult : Except PyExc Unit
  loadResult : Except PyExc Nat

/-- `build_callback_fn(function_string, userdata_names)` from builder.py,
threading the set of on-disk files explicitly.  The isinstance assert runs
first; source synthesis is pure and cannot raise; `ffibuilder.compile` writes
its files and either returns the library path or raises, in which case
`build_fn_cleanup` runs before the exception propagates; on macOS the library
is relinked in place; the module is loaded; `build_fn_cleanup` runs and the
`__fun` address is returned.  Only the compile step is wrapped in
`try/except`: a relink or load failure propagates without cleanup. -/
def build_callback_fn (w : BuildWorld) (function_string : String)
    (userdata_names : PyVal) (name : String) (fs : List String) :
    Except PyExc Nat × List String :=
  if !isListOrTuple userdata_names then (.error .assertionError, fs)
  else
    let _source := synth_source function_string (namesOf userdata_names)
    let fs1 := fs ++ w.compileFiles
    match w.compileResult with
    | .error e => (.error e, build_fn_cleanup w.debugEnv w.removable name fs1)
    | .ok _library_path =>
      match (if w.darwin then w.relinkResult else .ok ()) with
      | .error e => (.error e, fs1)
      | .ok _ =>
        match w.loadResult with
        | .error e => (.error e, fs1)
        | .ok addr => (.ok addr, build_fn_cleanup w.debugEnv w.removable name fs1)

/-- A value held in the process-wide warning-callback slot
(`cymj.get_warning_callback()` / `cymj.set_warning_callback(...)`). -/
inductive Translator where
  | raising
  | ignoring
  | custom (n : Nat)
deriving DecidableEq

/-- The process-wide state read and written through the `cymj` module:
the currently installed warning callback. -/
structure ProcState where
  warning_callback : Translator
deriving DecidableEq

/-- The `with ignore_mujoco_warnings():` context from builder.py.
`__enter__` records the current callback in `self.prev_user_warning` and
installs `user_warning_ignore_exception` (the no-op translator); the body
then runs against the updated process state and may return a value or raise;
`__exit__` runs in both cases (and, returning `None`, never suppresses the
exception) and reinstalls the recorded previous callback. -/
def ignore_mujoco_warnings (body : ProcState → Except PyExc Nat × ProcState)
    (s : ProcState) : Except PyExc Nat × ProcState :=
  let prev_user_warning := s.warning_callback
  let s1 : ProcState := ⟨Translator.ignoring⟩
  let r := body s1
  (r.1, ⟨prev_user_warning⟩)

/-- Python substring test `pat in warn`. -/
def warnContains (warn pat : String) : Bool :=
  decide (pat.data <:+: warn.data)

/-- Message carried by a raised exception, for `Except`-modelled raises. -/
def msgOf : Except String Unit → String
  | .error m => m
  | .ok _ => ""

/-- `user_warning_raise_exception(warn_bytes)` from builder.py, after the
`warn_bytes.decode()` step: each `if 'pat' in warn:` raises a
`MujocoException` whose message appends a remediation hint to the warning
text, so the sequential `if` statements behave as a first-match-wins chain;
when nothing matches, a generic `MujocoException` is raised.  A raise is
modelled as `.error msg`; falling off the end would be `.ok ()`. -/
def user_warning_raise_exception (warn : String) : Except String Unit :=
  if warnContains warn "Pre-allocated constraint buffer is full" then
    .error (warn ++ "Increase njmax in mujoco XML")
  else if warnContains warn "Pre-allocated contact buffer is full" then
    .error (warn ++ "Increase njconmax in mujoco XML")
  else if warnContains warn "Unknown warning type" then
    .error (warn ++ "Check for NaN in simulation.")
  else
    .error ("Got MuJoCo Warning: " ++ warn)

/-- `user_warning_ignore_exception(warn_bytes)` from builder.py: a no-op. -/
def user_warning_ignore_exception (_warn : String) : Except String Unit :=
  .ok ()

/-- Outcome of `subprocess.check_call(["python", compile_mujoco_path],
timeout=150)` on one attempt: normal exit, a non-zero exit status (raises
`CalledProcessError`), or an elapsed time budget (raises
`subprocess.TimeoutExpired`). -/
inductive CheckCallOutcome where
  | ok
  | nonzeroExit
  | timedOut
deriving DecidableEq

/-- The external world of one attempt of `compile_with_multiple_attempts`:
the build-subprocess outcome, how many files `glob.glob(...so_path)` finds,
whether `load_dynamic_ext` succeeds, and the loaded module handle. -/
structure AttemptEnv where
  checkCall : CheckCallOutcome
  soMatches : Nat
  loadOk : Bool
  module : Nat
deriving DecidableEq

/-- The body of one `try:` block in `compile_with_multiple_attempts`:
run the build subprocess, glob for exactly one generated `.so` (the bare
`assert` raises `AssertionError` otherwise), load it with
`load_dynamic_ext` (raising `ImportError` on failure), return the module. -/
def attemptOnce (a : AttemptEnv) : Except PyExc Nat :=
  match a.checkCall with
  | .nonzeroExit => .error .calledProcessError
  | .timedOut => .error .timeoutExpired
  | .ok =>
    if a.soMatches ≠ 1 then .error .assertionError
    else if a.loadOk then .ok a.module
    else .error .importError

/-- The `except (CalledProcessError, TimeoutError, ImportError)` clause of
`compile_with_multiple_attempts`.  `subprocess.TimeoutExpired` is not a
subclass of the builtin `TimeoutError`, so it is not caught here. -/
def orchestratorCatches : PyExc → Bool
  | .calledProcessError => true
  | .timeoutError => true
  | .importError => true
  | _ => false

/-- Observable trace of one `compile_with_multiple_attempts` call: the
returned module or propagated exception, the number of loop iterations that
started, and the (1-based) attempt numbers after which
`remove_mujoco_build()` ran. -/
structure OrchResult where
  result : Except PyExc Nat
  attemptsUsed : Nat
  cleanupsAfter : List Nat

/-- The `for attempt in range(3)` loop of `compile_with_multiple_attempts`:
`i` attempts have already run, `fuel` remain, `cleanups` records the attempt
numbers after which the workspace was destructively cleaned.  A caught
failure class cleans and retries; an uncaught exception propagates at once;
loop exhaustion raises `Exception("Failed to compile mujoco_py.")`. -/
def orchGo (events : Nat → AttemptEnv) : Nat → Nat → List Nat → OrchResult
  | _, 0, cleanups =>
    ⟨.error (.generic "Failed to compile mujoco_py."), 3, cleanups⟩
  | i, fuel + 1, cleanups =>
    match attemptOnce (events i) with
    | .ok m => ⟨.ok m, i + 1, cleanups⟩
    | .error e =>
      if orchestratorCatches e then
        orchGo events (i + 1) fuel (cleanups ++ [i + 1])
      else
        ⟨.error e, i + 1, cleanups⟩

/-- `compile_with_multiple_attempts()` from builder.py, with the outcome of
each attempt supplied by the `events` oracle. -/
def compile_with_multiple_attempts (events : Nat → AttemptEnv) : OrchResult :=
  orchGo events 0 3 []

/-! Helper lemmas shared by several claims. -/

/-- When the debug variable is falsy and no file hits a `PermissionError`,
`build_fn_cleanup` leaves no file with the given prefix behind. -/
theorem build_fn_cleanup_no_prefix_left (env : Option String) (removable : String → Bool)
    (name : String) (fs : List String)
    (hd : pyTruthy env = false) (hr : ∀ f, removable f = true) :
    (build_fn_cleanup env removable name fs).all (fun f => !strStarts f name) = true := by
  simp only [build_fn_cleanup, hd, Bool.false_eq_true, if_false, List.all_eq_true,
    List.mem_filter]
  rintro f ⟨_, hp⟩
  rcases hb : strStarts f name with _ | _
  · simp
  · rw [hb, hr f] at hp
    simp at hp

/-! ## C9: the debug environment switch of `build_fn_cleanup` -/

/-- C9: `build_fn_cleanup` deletes every file whose name begins with the
given prefix exactly when the `MUJOCO_PY_DEBUG_FN_BUILDER` environment
variable is absent or falsy (assuming no `PermissionError`), keeps every
non-matching file, and is a strict no-op when the variable holds a truthy
value. -/
theorem build_fn_cleanup_debug_switch (env : Option String) (removable : String → Bool)
    (name : String) (fs : List String) (hr : ∀ f, removable f = true) :
    (pyTruthy env = false →
      (build_fn_cleanup env removable name fs).all (fun f => !strStarts f name) = true ∧
      ∀ f ∈ fs, strStarts f name = false → f ∈ build_fn_cleanup env removable name fs) ∧
    (pyTruthy env = true → build_fn_cleanup env removable name fs = fs) := by
  constructor
  · intro hd
    refine ⟨build_fn_cleanup_no_prefix_left env removable name fs hd hr, ?_⟩
    intro f hf hns
    simp only [build_fn_cleanup, hd, Bool.false_eq_true, if_false, List.mem_filter]
    exact ⟨hf, by simp [hns]⟩
  · intro hd
    simp [build_fn_cleanup, hd]

/-- C9 witness: with the variable absent, a file carrying the prefix is
deleted and the result passes the no-prefix-left scan. -/
theorem build_fn_cleanup_debug_switch_witness :
    (build_fn_cleanup none (fun _ => true) "_fn_ab" ["_fn_ab.c", "keep.txt"]).all
      (fun f => !strStarts f "_fn_ab") = true :=
  ((build_fn_cleanup_debug_switch none (fun _ => true) "_fn_ab" ["_fn_ab.c", "keep.txt"]
      (fun _ => rfl)).1 rfl).1

/-! ## C10: the `isinstance` assert of `build_callback_fn` -/

/-- C10: for a `userdata_names` argument that is neither a list nor a tuple,
`build_callback_fn` fails with `AssertionError` immediately: no source is
synthesized, no compiler runs, and the set of files on disk is returned
unchanged, for every world and every starting filesystem. -/
theorem build_callback_fn_asserts_list_or_tuple (w : BuildWorld) (body : String)
    (v : PyVal) (name : String) (fs : List String) (h : isListOrTuple v = false) :
    build_callback_fn w body v name fs = (.error .assertionError, fs) := by
  simp [build_callback_fn, h]

/-- C10 witness: a string argument is rejected with the filesystem intact. -/
theorem build_callback_fn_asserts_list_or_tuple_witness :
    build_callback_fn ⟨none, false, fun _ => true, ["junk.c"], .ok "lib.so", .ok (), .ok 7⟩
        "void fun(const mjModel* m, mjData* d) {}" (.pyStr "my_sum") "_fn_abcdefghijklmno"
        ["pre.txt"] =
      (.error .assertionError, ["pre.txt"]) :=
  build_callback_fn_asserts_list_or_tuple _ _ _ _ _ rfl

/-! ## C5: the translator round-trip of `ignore_mujoco_warnings` -/

/-- C5: whatever translator `T` is installed in the process-wide slot when
the scope is entered, the body runs against the slot holding the no-op
translator, and after the scope exits the slot holds exactly `T` again —
both when the body returns normally and when it raises (the result
component carries either outcome unchanged). -/
theorem ignore_mujoco_warnings_roundtrip (T : Translator)
    (body : ProcState → Except PyExc Nat × ProcState) (s : ProcState)
    (h : s.warning_callback = T) :
    ignore_mujoco_warnings body s = ((body ⟨Translator.ignoring⟩).1, ⟨T⟩) := by
  cases s
  cases h
  rfl

/-- C5 witness: a custom translator is restored around a body that raises. -/
theorem ignore_mujoco_warnings_roundtrip_witness :
    ignore_mujoco_warnings (fun s => (.error .importError, s)) ⟨Translator.custom 7⟩ =
      (.error .importError, ⟨Translator.custom 7⟩) :=
  ignore_mujoco_warnings_roundtrip (Translator.custom 7) _ _ rfl

/-! ## C2: timeouts in `compile_with_multiple_attempts` -/

/-- C2: a build subprocess that exceeds its 150-second budget raises
`subprocess.TimeoutExpired`, which the
`except (CalledProcessError, TimeoutError, ImportError)` clause does not
catch (it is not a subclass of the builtin `TimeoutError`).  With every
attempt timing out, the exception therefore escapes during the first
attempt: one attempt runs, no workspace cleanup happens, and the fatal
`Exception("Failed to compile mujoco_py.")` is never reached. -/
theorem compile_timeout_escapes_uncaught :
    compile_with_multiple_attempts (fun _ => ⟨CheckCallOutcome.timedOut, 0, false, 0⟩) =
      ⟨.error .timeoutExpired, 1, []⟩ :=
  rfl

/-! ## C7: fail, fail, succeed -/

/-- C7: when attempts 1 and 2 fail with an exception class the orchestrator
catches and attempt 3 succeeds, `compile_with_multiple_attempts` returns the
module loaded on attempt 3, uses exactly 3 attempts, and runs
`remove_mujoco_build()` exactly twice — after attempt 1 and after
attempt 2. -/
theorem compile_retries_then_succeeds (events : Nat → AttemptEnv) (e0 e1 : PyExc) (m : Nat)
    (h0 : attemptOnce (events 0) = .error e0) (hc0 : orchestratorCatches e0 = true)
    (h1 : attemptOnce (events 1) = .error e1) (hc1 : orchestratorCatches e1 = true)
    (h2 : attemptOnce (events 2) = .ok m) :
    compile_with_multiple_attempts events = ⟨.ok m, 3, [1, 2]⟩ := by
  simp [compile_with_multiple_attempts, orchGo, h0, hc0, h1, hc1, h2]

/-- C7 witness: a `CalledProcessError`, then an `ImportError`, then success
loading module 42. -/
theorem compile_retries_then_succeeds_witness :
    compile_with_multiple_attempts
        (fun i => if i = 0 then ⟨CheckCallOutcome.nonzeroExit, 0, false, 0⟩
          else if i = 1 then ⟨CheckCallOutcome.ok, 1, false, 0⟩
          else ⟨CheckCallOutcome.ok, 1, true, 42⟩) =
      ⟨.ok 42, 3, [1, 2]⟩ :=
  compile_retries_then_succeeds _ .calledProcessError .importError 42 rfl rfl rfl rfl rfl

/-! ## C6: the raising warning translator -/

/-- C6: `user_warning_raise_exception` raises for every warning text — it
never returns normally; the raised message always contains the original
text; the three documented patterns are checked in a fixed order with the
first match appending its remediation hint to the warning text; and an
unmatched warning raises the generic wrapped message. -/
theorem user_warning_raise_exception_always_raises (warn : String) :
    user_warning_raise_exception warn ≠ .ok () ∧
    warn.data <:+: (msgOf (user_warning_raise_exception warn)).data ∧
    (warnContains warn "Pre-allocated constraint buffer is full" = true →
      user_warning_raise_exception warn = .error (warn ++ "Increase njmax in mujoco XML")) ∧
    (warnContains warn "Pre-allocated constraint buffer is full" = false →
     warnContains warn "Pre-allocated contact buffer is full" = true →
      user_warning_raise_exception warn = .error (warn ++ "Increase njconmax in mujoco XML")) ∧
    (warnContains warn "Pre-allocated constraint buffer is full" = false →
     warnContains warn "Pre-allocated contact buffer is full" = false →
     warnContains warn "Unknown warning type" = true →
      user_warning_raise_exception warn = .error (warn ++ "Check for NaN in simulation.")) ∧
    (warnContains warn "Pre-allocated constraint buffer is full" = false →
     warnContains warn "Pre-allocated contact buffer is full" = false →
     warnContains warn "Unknown warning type" = false →
      user_warning_raise_exception warn = .error ("Got MuJoCo Warning: " ++ warn)) := by
  refine ⟨?_, ?_, ?_, ?_, ?_, ?_⟩
  · unfold user_warning_raise_exception
    split <;> try simp
    split <;> try simp
    split <;> simp
  · unfold user_warning_raise_exception
    split
    · exact List.IsPrefix.isInfix ⟨_, rfl⟩
    · split
      · exact List.IsPrefix.isInfix ⟨_, rfl⟩
      · split
        · exact List.IsPrefix.isInfix ⟨_, rfl⟩
        · exact List.IsSuffix.isInfix ⟨_, rfl⟩
  · intro h1
    simp [user_warning_raise_exception, h1]
  · intro h1 h2
    simp [user_warning_raise_exception, h1, h2]
  · intro h1 h2 h3
    simp [user_warning_raise_exception, h1, h2, h3]
  · intro h1 h2 h3
    simp [user_warning_raise_exception, h1, h2, h3]

/-- C6 witness: the NaN-indicating pattern gets its dedicated hint, and an
unrecognized warning still raises, with the generic wrapped message. -/
theorem user_warning_raise_exception_always_raises_witness :
    user_warning_raise_exception "Unknown warning type 5" =
      .error ("Unknown warning type 5" ++ "Check for NaN in simulation.") ∧
    user_warning_raise_exception "boom" = .error ("Got MuJoCo Warning: " ++ "boom") :=
  ⟨(user_warning_raise_exception_always_raises "Unknown warning type 5").2.2.2.2.1
      (by decide) (by decide) (by decide),
   (user_warning_raise_exception_always_raises "boom").2.2.2.2.2
      (by decide) (by decide) (by decide)⟩

/-! ## C1: which exit paths of `build_callback_fn` reach the janitor -/

/-- A world where compilation succeeds and writes a partial artifact, but
`load_dynamic_ext` raises `ImportError`; debug cleanup is not disabled. -/
def loaderFailWorld : BuildWorld :=
  ⟨none, false, fun _ => true, ["_fn_abcdefghijklmno.c"], .ok "_fn_abcdefghijklmno.so",
    .ok (), .error .importError⟩

/-- C1 counterexample: with the debug variable unset and every file
removable, a loader failure propagates out of `build_callback_fn` while a
file carrying the build's prefix is still on disk — the janitor does not
run on the loader-failure path, so the claim's "zero files remain on every
failure path" is false. -/
theorem build_callback_fn_loader_failure_leaves_files :
    (build_callback_fn loaderFailWorld "void fun(const mjModel* m, mjData* d) {}"
        (.pyList []) "_fn_abcdefghijklmno" []).1 = .error .importError ∧
    (build_callback_fn loaderFailWorld "void fun(const mjModel* m, mjData* d) {}"
        (.pyList []) "_fn_abcdefghijklmno" []).2 = ["_fn_abcdefghijklmno.c"] ∧
    strStarts "_fn_abcdefghijklmno.c" "_fn_abcdefghijklmno" = true ∧
    pyTruthy loaderFailWorld.debugEnv = false := by
  refine ⟨rfl, rfl, by decide, rfl⟩

/-- C1 amended: outside debug mode (and absent `PermissionError`), the
janitor removes every prefix-matching file on the success path (cleanup runs
after the module is loaded, just before the `__fun` address is returned) and
on the compiler-failure path; but a relink failure or a loader failure
propagates without any cleanup, returning the filesystem still holding
everything the compiler wrote. -/
theorem build_callback_fn_cleanup_paths (w : BuildWorld) (body : String) (v : PyVal)
    (name : String) (fs : List String)
    (hv : isListOrTuple v = true)
    (hd : pyTruthy w.debugEnv = false)
    (hr : ∀ f, w.removable f = true) :
    (∀ e, w.compileResult = .error e →
      (build_callback_fn w body v name fs).1 = .error e ∧
      (build_callback_fn w body v name fs).2.all (fun f => !strStarts f name) = true) ∧
    (∀ p addr, w.compileResult = .ok p →
      (if w.darwin then w.relinkResult else .ok ()) = .ok () →
      w.loadResult = .ok addr →
      (build_callback_fn w body v name fs).1 = .ok addr ∧
      (build_callback_fn w body v name fs).2.all (fun f => !strStarts f name) = true) ∧
    (∀ p e, w.compileResult = .ok p →
      (if w.darwin then w.relinkResult else .ok ()) = .error e →
      (build_callback_fn w body v name fs).1 = .error e ∧
      (build_callback_fn w body v name fs).2 = fs ++ w.compileFiles) ∧
    (∀ p e, w.compileResult = .ok p →
      (if w.darwin then w.relinkResult else .ok ()) = .ok () →
      w.loadResult = .error e →
      (build_callback_fn w body v name fs).1 = .error e ∧
      (build_callback_fn w body v name fs).2 = fs ++ w.compileFiles) := by
  refine ⟨?_, ?_, ?_, ?_⟩
  · intro e hce
    simp [build_callback_fn, hv, hce,
      build_fn_cleanup_no_prefix_left w.debugEnv w.removable name (fs ++ w.compileFiles) hd hr]
  · intro p addr hce hrel hload
    simp [build_callback_fn, hv, hce, hrel, hload,
      build_fn_cleanup_no_prefix_left w.debugEnv w.removable name (fs ++ w.compileFiles) hd hr]
  · intro p e hce hrel
    simp [build_callback_fn, hv, hce, hrel]
  · intro p e hce hrel hload
    simp [build_callback_fn, hv, hce, hrel, hload]

/-- C1 amended witness: on a successful build with the debug variable unset,
the returned address is the loaded `__fun` and no prefix-matching file is
left on disk. -/
theorem build_callback_fn_cleanup_paths_witness :
    (build_callback_fn ⟨none, false, fun _ => true, ["_fn_abcdefghijklmno.c"],
        .ok "_fn_abcdefghijklmno.so", .ok (), .ok 42⟩
        "void fun(const mjModel* m, mjData* d) {}" (.pyList []) "_fn_abcdefghijklmno"
        []).1 = .ok 42 :=
  ((build_callback_fn_cleanup_paths ⟨none, false, fun _ => true, ["_fn_abcdefghijklmno.c"],
        .ok "_fn_abcdefghijklmno.so", .ok (), .ok 42⟩
        "void fun(const mjModel* m, mjData* d) {}" (.pyList []) "_fn_abcdefghijklmno" []
        rfl rfl (fun _ => rfl)).2.1 "_fn_abcdefghijklmno.so" 42 rfl rfl rfl).1

/-! ## C8: compiler failure reaches the janitor before propagating -/

/-- C8: when `ffibuilder.compile` raises, `build_callback_fn` propagates
that same exception, and the filesystem it leaves behind is exactly the
result of running `build_fn_cleanup` on the post-compile file set — so with
debug mode off (and no `PermissionError`) no file carrying the build's
prefix survives. -/
theorem build_callback_fn_compile_failure_cleans (w : BuildWorld) (body : String)
    (v : PyVal) (name : String) (fs : List String) (e : PyExc)
    (hv : isListOrTuple v = true)
    (hce : w.compileResult = .error e)
    (hd : pyTruthy w.debugEnv = false)
    (hr : ∀ f, w.removable f = true) :
    (build_callback_fn w body v name fs).1 = .error e ∧
    (build_callback_fn w body v name fs).2 =
      build_fn_cleanup w.debugEnv w.removable name (fs ++ w.compileFiles) ∧
    (build_callback_fn w body v name fs).2.all (fun f => !strStarts f name) = true := by
  refine ⟨?_, ?_, ?_⟩
  · simp [build_callback_fn, hv, hce]
  · simp [build_callback_fn, hv, hce]
  · simp [build_callback_fn, hv, hce,
      build_fn_cleanup_no_prefix_left w.debugEnv w.removable name (fs ++ w.compileFiles) hd hr]

/-- C8 witness: a failed compilation propagates the compiler error and
deletes the partial artifact it wrote. -/
theorem build_callback_fn_compile_failure_cleans_witness :
    (build_callback_fn ⟨none, false, fun _ => true, ["_fn_abcdefghijklmno.c"],
        .error (.generic "distutils error"), .ok (), .ok 7⟩
        "void broken(" (.pyList []) "_fn_abcdefghijklmno" []).1 =
      .error (.generic "distutils error") ∧
    (build_callback_fn ⟨none, false, fun _ => true, ["_fn_abcdefghijklmno.c"],
        .error (.generic "distutils error"), .ok (), .ok 7⟩
        "void broken(" (.pyList []) "_fn_abcdefghijklmno" []).2.all
      (fun f => !strStarts f "_fn_abcdefghijklmno") = true :=
  ⟨(build_callback_fn_compile_failure_cleans ⟨none, false, fun _ => true,
      ["_fn_abcdefghijklmno.c"], .error (.generic "distutils error"), .ok (), .ok 7⟩
      "void broken(" (.pyList []) "_fn_abcdefghijklmno" [] (.generic "distutils error")
      rfl rfl rfl (fun _ => rfl)).1,
   (build_callback_fn_compile_failure_cleans ⟨none, false, fun _ => true,
      ["_fn_abcdefghijklmno.c"], .error (.generic "distutils error"), .ok (), .ok 7⟩
      "void broken(" (.pyList []) "_fn_abcdefghijklmno" [] (.generic "distutils error")
      rfl rfl rfl (fun _ => rfl)).2.2⟩

/-! ## C3: duplicate alias names -/

/-- A world where every external build step succeeds. -/
def allOkWorld : BuildWorld :=
  ⟨none, false, fun _ => true, ["_fn_abcdefghijklmno.c"], .ok "_fn_abcdefghijklmno.so",
    .ok (), .ok 42⟩

/-- C3 counterexample: `userdata_names = ['my_x', 'my_x']` contains a
duplicate, yet `build_callback_fn` does not reject it — the only check is
the `isinstance` assert, which a list passes — and the synthesized source
carries two substitution directives for the same name, one per occurrence;
with the external steps succeeding the build completes and returns the
function pointer. -/
theorem build_callback_fn_accepts_duplicate_names :
    (build_callback_fn allOkWorld "void fun(const mjModel* m, mjData* d) {}"
        (.pyList ["my_x", "my_x"]) "_fn_abcdefghijklmno" []).1 = .ok 42 ∧
    synth_source "void fun(const mjModel* m, mjData* d) {}" ["my_x", "my_x"] =
      "#include <mujoco.h>\n#define my_x d->userdata[0]\n#define my_x d->userdata[1]\nvoid fun(const mjModel* m, mjData* d) {}\nuintptr_t __fun = (uintptr_t) fun;" := by
  exact ⟨rfl, by decide⟩

/-- C3 amended: duplicate alias names are not rejected.  The only input
validation in `build_callback_fn` is the list-or-tuple type check; a list
with duplicated names flows on into synthesis, which emits one substitution
directive per occurrence (mapping the repeated name to successive slots),
and on into compilation — when the external steps succeed the build returns
the loaded function pointer. -/
theorem build_callback_fn_duplicates_flow_through (w : BuildWorld) (body : String)
    (names : List String) (name : String) (fs : List String)
    (_hdup : ¬ names.Nodup) (p : String) (addr : Nat)
    (hce : w.compileResult = .ok p)
    (hrel : (if w.darwin then w.relinkResult else .ok ()) = .ok ())
    (hload : w.loadResult = .ok addr) :
    (build_callback_fn w body (.pyList names) name fs).1 = .ok addr ∧
    (directiveList names).length = names.length := by
  constructor
  · simp [build_callback_fn, isListOrTuple, hce, hrel, hload]
  · simp [directiveList, List.enum_length]

/-- C3 amended witness: the duplicate pair builds successfully. -/
theorem build_callback_fn_duplicates_flow_through_witness :
    (build_callback_fn allOkWorld "void fun(const mjModel* m, mjData* d) {}"
        (.pyList ["my_x", "my_x"]) "_fn_abcdefghijklmno" []).1 = .ok 42 :=
  (build_callback_fn_duplicates_flow_through allOkWorld
      "void fun(const mjModel* m, mjData* d) {}" ["my_x", "my_x"] "_fn_abcdefghijklmno" []
      (by decide) "_fn_abcdefghijklmno.so" 42 rfl rfl rfl).1

/-! ## C4: the shape of the synthesized source -/

/-- Accumulating the `#define` lines left-to-right, as the Python `+=` loop
does, equals the starting string followed by the concatenation of the
directives in order. -/
theorem foldl_defines_eq_concat (names : List String) :
    ∀ (i : Nat) (init : String),
      (names.enumFrom i).foldl (fun acc p => acc ++ defineLine p.2 p.1) init =
        init ++ concatList ((names.enumFrom i).map (fun p => defineLine p.2 p.1)) := by
  induction names with
  | nil =>
    intro i init
    simp [concatList]
  | cons n rest ih =>
    intro i init
    simp only [List.enumFrom_cons, List.foldl_cons, List.map_cons, concatList]
    rw [ih (i + 1) (init ++ defineLine n i), String.append_assoc]

/-- C4: for unique alias names, the synthesized source is exactly the fixed
header include, followed by the directives of `directiveList` concatenated
in order, followed by the caller's function body, followed by the directive
exporting the address of `fun`; `directiveList` has exactly one directive
per name, and the directive at position `i` maps the `i`-th name (in
request order) to userdata slot `i`.  Synthesis is a total function — it
never raises. -/
theorem synth_source_structure (body : String) (names : List String)
    (_h : names.Nodup) :
    synth_source body names =
      "#include <mujoco.h>\n" ++ concatList (directiveList names) ++ body ++
        "\nuintptr_t __fun = (uintptr_t) fun;" ∧
    (directiveList names).length = names.length ∧
    (∀ i (hi : i < names.length) (hi2 : i < (directiveList names).length),
      (directiveList names).get ⟨i, hi2⟩ = defineLine (names.get ⟨i, hi⟩) i) := by
  refine ⟨?_, by simp [directiveList, List.enum_length], ?_⟩
  · unfold synth_source directiveList List.enum
    rw [foldl_defines_eq_concat names 0 "#include <mujoco.h>\n"]
  · intro i hi hi2
    simp [directiveList, List.get_eq_getElem, List.getElem_map, List.getElem_enum]

/-- C4 witness: two distinct names produce the expected source layout. -/
theorem synth_source_structure_witness :
    synth_source "BODY" ["my_a", "my_b"] =
      "#include <mujoco.h>\n" ++ concatList (directiveList ["my_a", "my_b"]) ++ "BODY" ++
        "\nuintptr_t __fun = (uintptr_t) fun;" :=
  (synth_source_structure "BODY" ["my_a", "my_b"] (by decide)).1
